import Mathlib

/-!
# QKart storefront: cart reconciliation, cart mutation and search debounce

A shallow embedding of the logic in `src/components/Cart.js` and
`src/components/Products.js`, followed by theorems about it.

Modelling conventions.

* The numbers `cost` and `qty` are integers (`Int`).  The results of `+` and `*`
  on them are JavaScript numbers (`JsNum`): the exact integer result rounded to
  the nearest double, or an infinity, or `NaN`.  The two zeros of JavaScript,
  equal under `===`, are one number here.
* A JavaScript argument that may be missing is a `JsArg`: `undefined`, `null`,
  or a value.  A function that can throw returns `Except JsError _`.
* Objects that the code mutates in place are cells of an explicit heap: the array
  `productsData` is a `List Product`, and a reference to `productsData[j]` is
  the index `j`.
* React state (`item`, `notFound`, `debounceTimeout`) is a field of an explicit
  state record; effects (`enqueueSnackbar`, `axios.post`, `setTimeout`) are
  entries of an explicit log.
-/

namespace Qkart

/-! ## Data model (`Cart.js`, lines 13-35) -/

/-- A product object of the catalog.  `qty` is not part of the backend's answer:
it is the field that `generateCartItemsFrom` writes on the object, so it is
absent (`none`) on a freshly fetched product. -/
structure Product where
  name : String
  category : String
  cost : Int
  rating : Int
  image : String
  _id : String
  qty : Option Int
  deriving DecidableEq, Repr

/-- An entry of the backend's cart: `{ productId, qty }`. -/
structure CartRecord where
  productId : String
  qty : Int
  deriving DecidableEq, Repr

/-- A cart item as the aggregate functions read it: a product object whose
`qty` field is set. -/
structure CartItem where
  name : String
  qty : Int
  category : String
  cost : Int
  rating : Int
  image : String
  _id : String
  deriving DecidableEq, Repr

/-- A JavaScript argument: not passed (`undefined`), `null`, or a value. -/
inductive JsArg (α : Type) where
  | undefined : JsArg α
  | null : JsArg α
  | value : α → JsArg α
  deriving DecidableEq, Repr

/-- The exceptions the modelled code can raise. -/
inductive JsError where
  | typeError : JsError
  deriving DecidableEq, Repr

/-! ## `generateCartItemsFrom` (`Cart.js`, lines 50-74) -/

/-- The state of the two loops: the heap of product objects (`productsData`,
mutated in place) and the array `cartItem` of references into it. -/
structure MergeState where
  productsData : List Product
  cartItem : List Nat
  deriving DecidableEq, Repr

/-- One iteration of the inner loop, lines 63-66:
`if (cartData[i].productId === productsData[j]._id) {
   productsData[j].qty = cartData[i].qty; cartItem.push(productsData[j]); }`. -/
def mergeStep (r : CartRecord) (st : MergeState) (j : Nat) : MergeState :=
  match st.productsData[j]? with
  | some p =>
    if r.productId = p._id then
      { productsData := st.productsData.set j { p with qty := some r.qty },
        cartItem := st.cartItem ++ [j] }
    else st
  | none => st

/-- The inner loop, line 62: `for (let j = 0; j < productsData.length; j++)`. -/
def mergeRecord (st : MergeState) (r : CartRecord) : MergeState :=
  (List.range st.productsData.length).foldl (mergeStep r) st

/-- The function `generateCartItemsFrom`: `undefined` (here `none`) when
`cartData` is falsy, otherwise the heap and the array of references after the
outer loop over `cartData`. -/
def generateCartItemsFrom (cartData : JsArg (List CartRecord))
    (productsData : List Product) : Option MergeState :=
  match cartData with
  | JsArg.undefined => none
  | JsArg.null => none
  | JsArg.value records =>
    some (records.foldl mergeRecord { productsData := productsData, cartItem := [] })

/-- The objects the returned array refers to, read after the call. -/
def MergeState.items (st : MergeState) : List Product :=
  st.cartItem.filterMap (fun j => st.productsData[j]?)

/-- The object `p` after the assignment `p.qty = r.qty`. -/
def withQty (r : CartRecord) (p : Product) : Product := { p with qty := some r.qty }

/-! ## `getTotalCartValue` and `getTotalItems` (`Cart.js`, lines 86-109) -/

/-- The default parameter `items = []`: the default replaces `undefined` only. -/
def defaultItems {α : Type} (items : JsArg (List α)) : JsArg (List α) :=
  match items with
  | JsArg.undefined => JsArg.value []
  | other => other

/-- The method `Array.prototype.reduce` called without an initial value: it
throws a `TypeError` on the empty array, and otherwise starts from the first
element and folds the callback over the rest. -/
def reduce {α : Type} (callback : α → α → α) : List α → Except JsError α
  | [] => Except.error JsError.typeError
  | first :: rest => Except.ok (rest.foldl callback first)

/-- A JavaScript number that arithmetic on integers can produce: an integer, an
infinity (the flag tells whether it is the negative one), or `NaN`. -/
inductive JsNum where
  | int : Int → JsNum
  | inf : Bool → JsNum
  | nan : JsNum
  deriving DecidableEq, Repr

/-- The number of times `m` must be halved to get below `2 ^ 53`, that is the
least `e` with `m / 2 ^ e < 2 ^ 53`; `fuel` bounds the number of halvings, and
`fuel = m` is always enough. -/
def spacingExp : Nat → Nat → Nat
  | 0, _ => 0
  | fuel + 1, m => if m < 2 ^ 53 then 0 else 1 + spacingExp fuel (m / 2)

/-- The double nearest to the integer `n`, ties going to the even significand:
what an arithmetic operation returns when its exact result is `n`.  Up to
`2 ^ 53` in magnitude every integer is a double.  Above, the doubles are the
multiples `q * 2 ^ e` with `q` of 53 bits, and the result overflows to an
infinity when it reaches `2 ^ 1024`, that is when `e ≥ 972`, or `e = 971` and
`q` is rounded up to `2 ^ 53`. -/
def roundDouble (n : Int) : JsNum :=
  let m := n.natAbs
  if m ≤ 2 ^ 53 then JsNum.int n
  else
    let e := spacingExp m m
    let q := m / 2 ^ e
    let r := m % 2 ^ e
    let q1 := if 2 ^ e < 2 * r ∨ (2 * r = 2 ^ e ∧ q % 2 = 1) then q + 1 else q
    let v := q1 * 2 ^ e
    if 972 ≤ e ∨ (971 ≤ e ∧ q1 = 2 ^ 53) then JsNum.inf (decide (n < 0))
    else JsNum.int (if n < 0 then -(v : Int) else (v : Int))

/-- The operator `+` on numbers. -/
def JsNum.add : JsNum → JsNum → JsNum
  | JsNum.int a, JsNum.int b => roundDouble (a + b)
  | JsNum.nan, _ => JsNum.nan
  | _, JsNum.nan => JsNum.nan
  | JsNum.inf s, JsNum.inf t => if s = t then JsNum.inf s else JsNum.nan
  | JsNum.inf s, JsNum.int _ => JsNum.inf s
  | JsNum.int _, JsNum.inf t => JsNum.inf t

/-- The operator `*` on two integers. -/
def jsMul (a b : Int) : JsNum := roundDouble (a * b)

/-- The function `getTotalCartValue`, lines 86-92:
`if (!items) return 0;
 return items.map((i) => i.cost * i.qty).reduce((total, n) => total + n);`. -/
def getTotalCartValue (items : JsArg (List CartItem)) : Except JsError JsNum :=
  match defaultItems items with
  | JsArg.undefined => Except.ok (JsNum.int 0)
  | JsArg.null => Except.ok (JsNum.int 0)
  | JsArg.value arr =>
    reduce (fun total n => JsNum.add total n) (arr.map (fun i => jsMul i.cost i.qty))

/-- The function `getTotalItems`, lines 105-109:
`let itemNum = 0; items.forEach((i) => (itemNum += i.qty)); return itemNum;`.
On `null` the call `items.forEach` throws. -/
def getTotalItems (items : JsArg (List CartItem)) : Except JsError JsNum :=
  match defaultItems items with
  | JsArg.undefined => Except.error JsError.typeError
  | JsArg.null => Except.error JsError.typeError
  | JsArg.value arr =>
    Except.ok (arr.foldl (fun itemNum i => JsNum.add itemNum (JsNum.int i.qty)) (JsNum.int 0))

/-! ## `isItemInCart` and `addToCart` (`Products.js`, lines 226-328) -/

/-- The argument `options` of `addToCart`; `preventDuplicate` is the truth value
of the field. -/
structure Options where
  preventDuplicate : Bool
  deriving DecidableEq, Repr

/-- What `axios.post` settles to: resolved with the response body, or rejected
with an error `e`, of which the code reads `e?.response?.data?.message` only
(`none` when any link of that chain is missing, as on a transport failure). -/
inductive PostResult where
  | resolved : List CartRecord → PostResult
  | rejected : Option String → PostResult
  deriving DecidableEq, Repr

/-- The effects of `addToCart`, in the order they happen. -/
inductive Effect where
  | enqueueSnackbar : String → String → Effect
  | post : String → String → Int → String → Effect
  | setItems : List CartRecord → Effect
  deriving DecidableEq, Repr

/-- The part of the `Products` component that `addToCart` touches: the React
state `item` (the held cart records) and the log of effects. -/
structure CartState where
  item : List CartRecord
  log : List Effect
  deriving DecidableEq, Repr

/-- The truth value of the session token: `null` and the empty string are falsy. -/
def tokenPresent (token : Option String) : Bool :=
  match token with
  | none => false
  | some t => decide (t ≠ "")

/-- The truth value of a string, as in `message ? ... : ...`. -/
def truthyString (message : Option String) : Bool :=
  match message with
  | none => false
  | some m => decide (m ≠ "")

/-- The function `isItemInCart`, lines 226-241: collect the entries with the
given `productId`, answer whether any was collected. -/
def isItemInCart (items : List CartRecord) (productId : String) : Bool :=
  let alreadyCart : List CartRecord :=
    items.foldl (fun acc i => if i.productId = productId then acc ++ [i] else acc) []
  decide (alreadyCart.length > 0)

/-- The default parameter `options = { preventDuplicate: false }`, then the read
`options.preventDuplicate`, which throws on `null`. -/
def preventDuplicateOf (options : JsArg Options) : Except JsError Bool :=
  match options with
  | JsArg.undefined => Except.ok false
  | JsArg.null => Except.error JsError.typeError
  | JsArg.value o => Except.ok o.preventDuplicate

def loginWarning : String := "Login to add an item to the Cart"

def duplicateWarning : String :=
  "Item already in cart. Use the cart sidebar to update quantity or remove item."

def backendWarning : String :=
  "Could not fetch products. Check that the backend is running, reachable and returns valid JSON"

/-- The URL of the cart endpoint, for the `endpoint` of the configuration. -/
def cartUrl (endpoint : String) : String := endpoint ++ "/cart"

/-- The function `addToCart`, lines 280-328.  `backend` answers the request
`POST /cart` with body `{ productId, qty }` and the bearer token; `endpoint` is
`config.endpoint`.  The result is `Except.error` when the call throws (the read
of `options.preventDuplicate` on `null`), which happens before any effect. -/
def addToCart (endpoint : String) (backend : String → Int → String → PostResult)
    (s : CartState) (token : Option String) (items : List CartRecord)
    (productId : String) (qty : Int) (options : JsArg Options) :
    Except JsError CartState :=
  match token, tokenPresent token with
  | some t, true =>
    match preventDuplicateOf options with
    | Except.error e => Except.error e
    | Except.ok preventDuplicate =>
      if preventDuplicate && isItemInCart items productId then
        Except.ok { s with log := s.log ++ [Effect.enqueueSnackbar duplicateWarning "warning"] }
      else
        let sent := s.log ++ [Effect.post (cartUrl endpoint) productId qty t]
        match backend productId qty t with
        | PostResult.resolved data =>
          Except.ok { item := data, log := sent ++ [Effect.setItems data] }
        | PostResult.rejected message =>
          if truthyString message then
            Except.ok { s with log := sent ++ [Effect.enqueueSnackbar (message.getD "") "error"] }
          else
            Except.ok { s with log := sent ++ [Effect.enqueueSnackbar backendWarning "error"] }
  | _, _ => Except.ok { s with log := s.log ++ [Effect.enqueueSnackbar loginWarning "warning"] }

/-- Whether a log contains a backend request. -/
def Effect.isPost : Effect → Bool
  | Effect.post _ _ _ _ => true
  | _ => false

/-! ## `performSearch` and `debounceSearch` (`Products.js`, lines 117-155) -/

/-- A pending timer: its handle, the time (ms) at which it elapses, and the text
captured by its callback `() => performSearch(value)`. -/
structure Timer where
  id : Nat
  due : Nat
  text : String
  deriving DecidableEq, Repr

/-- The search side of the `Products` component and its environment: the clock
(ms), the next timer handle, the pending timers, the calls of `performSearch`
so far (time and text, in order), and the React state `product`, `notFound`,
`debounceTimeout`. -/
structure SearchState where
  now : Nat
  nextTimer : Nat
  timers : List Timer
  requests : List (Nat × String)
  product : List Product
  notFound : Bool
  debounceTimeout : Option Nat
  deriving DecidableEq, Repr

/-- What `axios.get` of the search URL settles to. -/
inductive SearchResult where
  | resolved : List Product → SearchResult
  | rejected : SearchResult
  deriving DecidableEq, Repr

/-- The start of `performSearch(text)`, line 123: the request is issued. -/
def performSearch (text : String) (s : SearchState) : SearchState :=
  { s with requests := s.requests ++ [(s.now, text)] }

/-- The rest of `performSearch`, lines 124-128, once the request has settled:
`setProduct(res.data)` on success, `setNotFound(true)` in the `catch`. -/
def performSearchSettled (result : SearchResult) (s : SearchState) : SearchState :=
  match result with
  | SearchResult.resolved data => { s with product := data }
  | SearchResult.rejected => { s with notFound := true }

/-- The call `clearTimeout(handle)`. -/
def clearTimeout (handle : Nat) (s : SearchState) : SearchState :=
  { s with timers := s.timers.filter (fun t => decide (t.id ≠ handle)) }

/-- The call `setTimeout(() => performSearch(text), delay)`: the new handle and
the state with the timer pending. -/
def setTimeout (text : String) (delay : Nat) (s : SearchState) : Nat × SearchState :=
  (s.nextTimer,
   { s with nextTimer := s.nextTimer + 1,
            timers := s.timers ++ [{ id := s.nextTimer, due := s.now + delay, text := text }] })

/-- The function `debounceSearch`, lines 144-155, on `event.target.value` and the
handle passed by the caller.  A handle is truthy when it is not `null` and not 0. -/
def debounceSearch (value : String) (debounceTimeout : Option Nat) (s : SearchState) :
    SearchState :=
  if value ≠ "" then
    let s1 :=
      match debounceTimeout with
      | some handle => if handle ≠ 0 then clearTimeout handle s else s
      | none => s
    let r := setTimeout value 500 s1
    { r.2 with debounceTimeout := some r.1 }
  else
    { s with notFound := false }

/-- A pending timer elapses: the clock is at its due time, the timer is no longer
pending, and its callback runs. -/
def fire (s : SearchState) (t : Timer) : SearchState :=
  performSearch t.text
    { s with now := t.due, timers := s.timers.filter (fun u => decide (u.id ≠ t.id)) }

/-- Time passes for `dt` ms with no input: the pending timers that elapse by then
fire in the order of their due times, and the clock ends `dt` later. -/
def elapse (dt : Nat) (s : SearchState) : SearchState :=
  let target := s.now + dt
  let elapsing :=
    (s.timers.filter (fun t => decide (t.due ≤ target))).insertionSort (fun a b => a.due ≤ b.due)
  { elapsing.foldl fire s with now := target }

/-- A keystroke in the search field, `gap` ms after the previous event: the
handler `onChange` calls `debounceSearch(e, debounceTimeout)` with the handle
held in the state (lines 348-350). -/
def keystroke (s : SearchState) (k : Nat × String) : SearchState :=
  let s1 := elapse k.1 s
  debounceSearch k.2 s1.debounceTimeout s1

/-- The state of a freshly mounted component at time `t0`: no timer was ever
set (handles start at 1). -/
def mounted (t0 : Nat) : SearchState :=
  { now := t0, nextTimer := 1, timers := [], requests := [], product := [],
    notFound := false, debounceTimeout := none }

/-! ## `addToCart` around its `await` (`Products.js`, lines 287-327) -/

/-- The function `addToCart` up to its `await`, lines 287-313: the two guards, then
the request is sent.  The flag tells whether a request is now in flight. -/
def addToCartIssue (endpoint : String) (s : CartState) (token : Option String)
    (items : List CartRecord) (productId : String) (qty : Int) (options : JsArg Options) :
    Except JsError (CartState × Bool) :=
  match token, tokenPresent token with
  | some t, true =>
    match preventDuplicateOf options with
    | Except.error e => Except.error e
    | Except.ok preventDuplicate =>
      if preventDuplicate && isItemInCart items productId then
        Except.ok
          ({ s with log := s.log ++ [Effect.enqueueSnackbar duplicateWarning "warning"] }, false)
      else
        Except.ok
          ({ s with log := s.log ++ [Effect.post (cartUrl endpoint) productId qty t] }, true)
  | _, _ =>
    Except.ok ({ s with log := s.log ++ [Effect.enqueueSnackbar loginWarning "warning"] }, false)

/-- The function `addToCart` from its `await` on, lines 314-327, run when the
response arrives, on the state the component holds at that moment:
`setItems(res.data)`, or the snackbar of the `catch`. -/
def addToCartSettled (result : PostResult) (s : CartState) : CartState :=
  match result with
  | PostResult.resolved data => { item := data, log := s.log ++ [Effect.setItems data] }
  | PostResult.rejected message =>
    if truthyString message then
      { s with log := s.log ++ [Effect.enqueueSnackbar (message.getD "") "error"] }
    else
      { s with log := s.log ++ [Effect.enqueueSnackbar backendWarning "error"] }

/-! ## The product area of the view (`Products.js`, lines 386-409 and 426-447) -/

/-- What the product area renders. -/
inductive View where
  | loading : View
  | noProductsFound : View
  | grid : List Product → View
  deriving DecidableEq, Repr

/-- The expression `isLoading ? ... : notFound ? ... : product.map(...)`; the
state `isLoading` belongs to `performAPICall` and is a parameter here. -/
def productsView (isLoading : Bool) (s : SearchState) : View :=
  if isLoading then View.loading
  else if s.notFound then View.noProductsFound
  else View.grid s.product

/-- What can happen on the search side: a keystroke `gap` ms after the previous
event, time passing with no input, and the settling of a search request. -/
inductive SearchEvent where
  | key : Nat → String → SearchEvent
  | wait : Nat → SearchEvent
  | settled : SearchResult → SearchEvent
  deriving DecidableEq, Repr

/-- The state after an event. -/
def SearchEvent.apply (s : SearchState) (e : SearchEvent) : SearchState :=
  match e with
  | SearchEvent.key gap text => keystroke s (gap, text)
  | SearchEvent.wait dt => elapse dt s
  | SearchEvent.settled result => performSearchSettled result s

/-- Whether an event is a keystroke with empty query text. -/
def SearchEvent.isEmptyKey : SearchEvent → Bool
  | SearchEvent.key _ text => decide (text = "")
  | _ => false

/-- The state after a sequence of events. -/
def runSearch (s : SearchState) (events : List SearchEvent) : SearchState :=
  events.foldl SearchEvent.apply s

/-! ## Definitions used to state the results -/

/-- What one pass of the inner loop for record `r` does to a product object. -/
def stamp (r : CartRecord) (p : Product) : Product :=
  if r.productId = p._id then withQty r p else p

/-- What the passes for the records `rs`, in order, do to a product object. -/
def stampAll (rs : List CartRecord) (p : Product) : Product :=
  rs.foldl (fun q r => stamp r q) p

/-- The indices, counted from `off`, of the products whose `_id` is `r.productId`. -/
def matchIdx (r : CartRecord) : Nat → List Product → List Nat
  | _, [] => []
  | off, p :: rest =>
    if r.productId = p._id then off :: matchIdx r (off + 1) rest
    else matchIdx r (off + 1) rest

/-- The debouncer holds exactly one pending timer: it is the one whose handle the
state holds, it elapses 500 ms after the current time and will search for `q`;
`reqs` are the searches fired so far. -/
def PendingFire (reqs : List (Nat × String)) (q : String) (s : SearchState) : Prop :=
  s.nextTimer ≠ 0 ∧ s.requests = reqs ∧
    ∃ id, id ≠ 0 ∧ s.timers = [{ id := id, due := s.now + 500, text := q }] ∧
      s.debounceTimeout = some id

/-! ## The merge `generateCartItemsFrom` in closed form -/

theorem stamp_id (r : CartRecord) (p : Product) : (stamp r p)._id = p._id := by
  unfold stamp withQty
  split <;> rfl

theorem stampAll_id (rs : List CartRecord) (p : Product) : (stampAll rs p)._id = p._id := by
  induction rs generalizing p with
  | nil => rfl
  | cons r rs ih =>
    show (stampAll rs (stamp r p))._id = p._id
    rw [ih, stamp_id]

theorem matchIdx_map (r : CartRecord) (f : Product → Product) (hf : ∀ p, (f p)._id = p._id)
    (off : Nat) (ps : List Product) : matchIdx r off (ps.map f) = matchIdx r off ps := by
  induction ps generalizing off with
  | nil => rfl
  | cons p ps ih => simp [matchIdx, hf, ih]

theorem getElem?_mid (pre suf : List Product) (p : Product) :
    (pre ++ p :: suf)[pre.length]? = some p := by
  rw [List.getElem?_append_right (Nat.le_refl _)]
  simp

theorem set_mid (pre suf : List Product) (p q : Product) :
    (pre ++ p :: suf).set pre.length q = (pre ++ [q]) ++ suf := by simp

theorem mergeStep_mid (r : CartRecord) (pre suf : List Product) (p : Product) (acc : List Nat) :
    mergeStep r { productsData := pre ++ p :: suf, cartItem := acc } pre.length =
      { productsData := (pre ++ [stamp r p]) ++ suf,
        cartItem := acc ++ (if r.productId = p._id then [pre.length] else []) } := by
  unfold mergeStep
  simp only [getElem?_mid]
  by_cases h : r.productId = p._id
  · simp only [h, if_true, set_mid, stamp, withQty]
  · simp [h, stamp]

theorem mergeStep_foldl (r : CartRecord) (suf pre : List Product) (acc : List Nat) :
    (List.range' pre.length suf.length).foldl (mergeStep r)
        { productsData := pre ++ suf, cartItem := acc } =
      { productsData := pre ++ suf.map (stamp r),
        cartItem := acc ++ matchIdx r pre.length suf } := by
  induction suf generalizing pre acc with
  | nil => simp [matchIdx]
  | cons p suf ih =>
    have hlen : (pre ++ [stamp r p]).length = pre.length + 1 := by simp
    simp only [List.length_cons, List.range'_succ, List.foldl_cons, mergeStep_mid]
    rw [← hlen, ih]
    by_cases h : r.productId = p._id <;> simp [matchIdx, h]

theorem mergeRecord_eq (st : MergeState) (r : CartRecord) :
    mergeRecord st r =
      { productsData := st.productsData.map (stamp r),
        cartItem := st.cartItem ++ matchIdx r 0 st.productsData } := by
  have h := mergeStep_foldl r st.productsData [] st.cartItem
  simpa [mergeRecord, List.range_eq_range'] using h

theorem foldl_mergeRecord (rs : List CartRecord) (ps : List Product) (acc : List Nat) :
    rs.foldl mergeRecord { productsData := ps, cartItem := acc } =
      { productsData := ps.map (stampAll rs),
        cartItem := acc ++ rs.flatMap (fun r => matchIdx r 0 ps) } := by
  induction rs generalizing ps acc with
  | nil =>
    have h : stampAll [] = id := rfl
    simp [h]
  | cons r rs ih =>
    have hm : ∀ r', matchIdx r' 0 (ps.map (stamp r)) = matchIdx r' 0 ps :=
      fun r' => matchIdx_map r' (stamp r) (stamp_id r) 0 ps
    have hs : stampAll (r :: rs) = stampAll rs ∘ stamp r := rfl
    simp only [List.foldl_cons, mergeRecord_eq, ih, List.map_map, List.flatMap_cons,
      List.append_assoc, hm, hs]



theorem matchIdx_deref (r : CartRecord) (suf pre : List Product) :
    (matchIdx r pre.length suf).map (fun j => (pre ++ suf)[j]?) =
      (suf.filter (fun p => decide (r.productId = p._id))).map some := by
  induction suf generalizing pre with
  | nil => rfl
  | cons p suf ih =>
    have hlen : (pre ++ [p]).length = pre.length + 1 := by simp
    have happ : pre ++ p :: suf = (pre ++ [p]) ++ suf := by simp
    have ih' := ih (pre ++ [p])
    rw [hlen, ← happ] at ih'
    by_cases h : r.productId = p._id
    · simp only [matchIdx, h, if_true, List.map_cons, getElem?_mid, ih', decide_True,
        List.filter_cons_of_pos]
    · simp only [matchIdx, h, if_false, ih', decide_False, Bool.false_eq_true,
        not_false_eq_true, List.filter_cons_of_neg]

theorem filter_map_stamp (r : CartRecord) (f : Product → Product)
    (hf : ∀ p, (f p)._id = p._id) (ps : List Product) :
    (ps.map f).filter (fun p => decide (r.productId = p._id)) =
      (ps.filter (fun p => decide (r.productId = p._id))).map f := by
  induction ps with
  | nil => rfl
  | cons p ps ih =>
    simp only [List.map_cons, List.filter_cons, hf, ih]
    split <;> rfl

theorem refs_deref (f : Product → Product) (hf : ∀ p, (f p)._id = p._id)
    (ps : List Product) (rs : List CartRecord) :
    (rs.flatMap (fun r => matchIdx r 0 ps)).map (fun j => (ps.map f)[j]?) =
      (rs.flatMap (fun r =>
        (ps.filter (fun p => decide (r.productId = p._id))).map f)).map some := by
  induction rs with
  | nil => rfl
  | cons r rs ih =>
    have h1 := matchIdx_deref r (ps.map f) []
    simp only [List.length_nil, List.nil_append, matchIdx_map r f hf,
      filter_map_stamp r f hf] at h1
    simp only [List.flatMap_cons, List.map_append, ih, h1]

theorem filterMap_of_map_some {α β : Type} (f : α → Option β) (l : List α) (l' : List β)
    (h : l.map f = l'.map some) : l.filterMap f = l' := by
  induction l generalizing l' with
  | nil =>
    cases l' with
    | nil => rfl
    | cons b l' => simp at h
  | cons a l ih =>
    cases l' with
    | nil => simp at h
    | cons b l' =>
      simp only [List.map_cons, List.cons.injEq] at h
      simp [List.filterMap_cons, h.1, ih l' h.2]

/-- The result of `generateCartItemsFrom` on a list of records, in closed form. -/
theorem generate_eq (rs : List CartRecord) (ps : List Product) :
    generateCartItemsFrom (JsArg.value rs) ps =
      some { productsData := ps.map (stampAll rs),
             cartItem := rs.flatMap (fun r => matchIdx r 0 ps) } := by
  simp [generateCartItemsFrom, foldl_mergeRecord]

/-- Every reference in the returned array is valid, and the referenced objects
are, record by record, the matching products after all the assignments. -/
theorem generate_items (rs : List CartRecord) (ps : List Product) :
    ∃ st, generateCartItemsFrom (JsArg.value rs) ps = some st ∧
      st.items.length = st.cartItem.length ∧
      st.items = rs.flatMap (fun r =>
        (ps.filter (fun p => decide (r.productId = p._id))).map (stampAll rs)) := by
  refine ⟨_, generate_eq rs ps, ?_⟩
  have h := refs_deref (stampAll rs) (stampAll_id rs) ps rs
  have h2 := filterMap_of_map_some _ _ _ h
  refine ⟨?_, h2⟩
  unfold MergeState.items
  rw [h2]
  have := congrArg List.length h
  simpa using this.symm



theorem stampAll_of_not_mem (rs : List CartRecord) (p : Product)
    (h : ∀ r ∈ rs, r.productId ≠ p._id) : stampAll rs p = p := by
  induction rs with
  | nil => rfl
  | cons r rs ih =>
    have h1 : stamp r p = p := by simp [stamp, h r (List.mem_cons_self _ _)]
    show stampAll rs (stamp r p) = p
    rw [h1]
    exact ih (fun r' hr' => h r' (List.mem_cons_of_mem _ hr'))

theorem stampAll_of_mem (rs : List CartRecord) (hrs : (rs.map (fun r => r.productId)).Nodup)
    (r : CartRecord) (hr : r ∈ rs) (p : Product) (hp : r.productId = p._id) :
    stampAll rs p = withQty r p := by
  induction rs generalizing p with
  | nil => cases hr
  | cons r' rs ih =>
    simp only [List.map_cons, List.nodup_cons, List.mem_map, not_exists, not_and] at hrs
    show stampAll rs (stamp r' p) = withQty r p
    rcases List.mem_cons.1 hr with rfl | hmem
    · have h1 : stamp r p = withQty r p := by simp [stamp, hp]
      rw [h1]
      apply stampAll_of_not_mem
      intro r' hr' heq
      exact hrs.1 r' hr' (heq.trans (by simpa [withQty] using hp.symm))
    · have hne : r'.productId ≠ p._id := fun heq => hrs.1 r hmem (hp.trans heq.symm)
      have h1 : stamp r' p = p := by simp [stamp, hne]
      rw [h1]
      exact ih hrs.2 hmem p hp

theorem flatMap_congr_mem {α β : Type} (l : List α) (f g : α → List β)
    (h : ∀ a ∈ l, f a = g a) : l.flatMap f = l.flatMap g := by
  induction l with
  | nil => rfl
  | cons a l ih =>
    simp only [List.flatMap_cons, h a (List.mem_cons_self _ _)]
    rw [ih (fun b hb => h b (List.mem_cons_of_mem _ hb))]

theorem filter_ids_of_nodup (pid : String) (ps : List Product)
    (hps : (ps.map (fun p => p._id)).Nodup) :
    (ps.filter (fun p => decide (pid = p._id))).map (fun p => p._id) =
      if pid ∈ ps.map (fun p => p._id) then [pid] else [] := by
  induction ps with
  | nil => rfl
  | cons p ps ih =>
    simp only [List.map_cons, List.nodup_cons] at hps
    by_cases h : pid = p._id
    · subst h
      have hnone : ps.filter (fun q => decide (p._id = q._id)) = [] := by
        rw [List.filter_eq_nil_iff]
        intro q hq
        have : q._id ≠ p._id := fun heq => hps.1 (heq ▸ List.mem_map_of_mem (fun p => p._id) hq)
        simpa using fun heq => this heq.symm
      simp [List.filter_cons, hnone]
    · have h' : ¬ p._id = pid := fun e => h e.symm
      simp [List.filter_cons, h, h', ih hps.2]

/-! ## C1, C2: the items returned by `generateCartItemsFrom` -/

/-- C1 (amended): for every list of cart records `R` and every catalog `C` in which
no two products share an `_id`, `generateCartItemsFrom(R, C)` returns an array
whose references are all valid and whose sequence of item ids is the sequence of
`R`'s `productId`s filtered by membership in `C`: one item per record whose
product is in the catalog, none for the others, in `R`'s order. -/
theorem generateCartItemsFrom_ids (R : List CartRecord) (C : List Product)
    (hC : (C.map (fun p => p._id)).Nodup) :
    ∃ st, generateCartItemsFrom (JsArg.value R) C = some st ∧
      st.items.length = st.cartItem.length ∧
      st.items.map (fun p => p._id) =
        (R.map (fun r => r.productId)).filter
          (fun pid => decide (pid ∈ C.map (fun p => p._id))) := by
  obtain ⟨st, hst, hlen, hitems⟩ := generate_items R C
  refine ⟨st, hst, hlen, ?_⟩
  rw [hitems]
  have key : ∀ rs : List CartRecord,
      (rs.flatMap (fun r =>
        (C.filter (fun p => decide (r.productId = p._id))).map (stampAll R))).map
          (fun p => p._id) =
        (rs.map (fun r => r.productId)).filter
          (fun pid => decide (pid ∈ C.map (fun p => p._id))) := by
    intro rs
    induction rs with
    | nil => rfl
    | cons r rs ih =>
      have hr : ((C.filter (fun p => decide (r.productId = p._id))).map (stampAll R)).map
          (fun p => p._id) =
          if r.productId ∈ C.map (fun p => p._id) then [r.productId] else [] := by
        rw [← filter_ids_of_nodup r.productId C hC, List.map_map]
        apply List.map_congr_left
        intro p _
        exact stampAll_id R p
      simp only [List.flatMap_cons, List.map_append, ih, hr, List.map_cons, List.filter_cons]
      by_cases h : r.productId ∈ C.map (fun p => p._id) <;> simp [h]
  exact key R

/-- Instance of C1 (amended) at the records `p1 × 2`, `p3 × 1` and a catalog with
the products `p1` and `p2`. -/
theorem generateCartItemsFrom_ids_witness :
    ([⟨"Phone", "Phones", 100, 4, "a.jpg", "p1", none⟩,
      ⟨"Ball", "Sports", 50, 5, "b.jpg", "p2", none⟩].map (fun p : Product => p._id)).Nodup ∧
    ∃ st, generateCartItemsFrom
        (JsArg.value [⟨"p1", 2⟩, ⟨"p3", 1⟩])
        [⟨"Phone", "Phones", 100, 4, "a.jpg", "p1", none⟩,
         ⟨"Ball", "Sports", 50, 5, "b.jpg", "p2", none⟩] = some st ∧
      st.items.length = st.cartItem.length ∧
      st.items.map (fun p => p._id) =
        ([⟨"p1", 2⟩, ⟨"p3", 1⟩].map (fun r : CartRecord => r.productId)).filter
          (fun pid => decide (pid ∈
            [⟨"Phone", "Phones", 100, 4, "a.jpg", "p1", none⟩,
             ⟨"Ball", "Sports", 50, 5, "b.jpg", "p2", none⟩].map
              (fun p : Product => p._id))) :=
  ⟨by decide, generateCartItemsFrom_ids _ _ (by decide)⟩

/-- C1 as stated fails on a catalog in which two products share an `_id`: the
single record `p1` then yields two items, so the ids of the returned items,
`p1, p1`, are not the record's `productId`s filtered by membership, `p1`. -/
theorem generateCartItemsFrom_ids_counterexample :
    generateCartItemsFrom (JsArg.value [⟨"p1", 2⟩])
        [⟨"Phone", "Phones", 100, 4, "a.jpg", "p1", none⟩,
         ⟨"Phone 2", "Phones", 70, 3, "c.jpg", "p1", none⟩] =
      some { productsData :=
               [⟨"Phone", "Phones", 100, 4, "a.jpg", "p1", some 2⟩,
                ⟨"Phone 2", "Phones", 70, 3, "c.jpg", "p1", some 2⟩],
             cartItem := [0, 1] } ∧
    (MergeState.items
        { productsData :=
            [⟨"Phone", "Phones", 100, 4, "a.jpg", "p1", some 2⟩,
             ⟨"Phone 2", "Phones", 70, 3, "c.jpg", "p1", some 2⟩],
          cartItem := [0, 1] }).map (fun p => p._id) = ["p1", "p1"] ∧
    (MergeState.items
        { productsData :=
            [⟨"Phone", "Phones", 100, 4, "a.jpg", "p1", some 2⟩,
             ⟨"Phone 2", "Phones", 70, 3, "c.jpg", "p1", some 2⟩],
          cartItem := [0, 1] }).map (fun p => p._id) ≠
      ([⟨"p1", 2⟩].map (fun r : CartRecord => r.productId)).filter
        (fun pid => decide (pid ∈
          [⟨"Phone", "Phones", 100, 4, "a.jpg", "p1", none⟩,
           ⟨"Phone 2", "Phones", 70, 3, "c.jpg", "p1", none⟩].map
            (fun p : Product => p._id))) := by
  refine ⟨by decide, by decide, by decide⟩

/-- C2: for every list of cart records `R` in which no two records share a
`productId` and every catalog `C`, the items returned by
`generateCartItemsFrom(R, C)` are, record by record in `R`'s order, the products
whose `_id` is the record's `productId`, each carrying the record's `qty` and
the product's own name, cost, category, rating, image and id. -/
theorem generateCartItemsFrom_items (R : List CartRecord) (C : List Product)
    (hR : (R.map (fun r => r.productId)).Nodup) :
    ∃ st, generateCartItemsFrom (JsArg.value R) C = some st ∧
      st.items.length = st.cartItem.length ∧
      st.items = R.flatMap (fun r =>
        (C.filter (fun p => decide (r.productId = p._id))).map
          (fun p => { p with qty := some r.qty })) := by
  obtain ⟨st, hst, hlen, hitems⟩ := generate_items R C
  refine ⟨st, hst, hlen, ?_⟩
  rw [hitems]
  apply flatMap_congr_mem
  intro r hr
  apply List.map_congr_left
  intro p hp
  have hpid : r.productId = p._id := by simpa using (List.mem_filter.1 hp).2
  exact stampAll_of_mem R hR r hr p hpid

/-- Instance of C2 at the records `p1 × 2`, `p2 × 1` and a catalog with the
products `p1` and `p2`, one of them carrying a stale `qty`. -/
theorem generateCartItemsFrom_items_witness :
    ([⟨"p1", 2⟩, ⟨"p2", 1⟩].map (fun r : CartRecord => r.productId)).Nodup ∧
    ∃ st, generateCartItemsFrom
        (JsArg.value [⟨"p1", 2⟩, ⟨"p2", 1⟩])
        [⟨"Phone", "Phones", 100, 4, "a.jpg", "p1", some 7⟩,
         ⟨"Ball", "Sports", 50, 5, "b.jpg", "p2", none⟩] = some st ∧
      st.items.length = st.cartItem.length ∧
      st.items = [⟨"p1", 2⟩, ⟨"p2", 1⟩].flatMap (fun r : CartRecord =>
        ([⟨"Phone", "Phones", 100, 4, "a.jpg", "p1", some 7⟩,
          ⟨"Ball", "Sports", 50, 5, "b.jpg", "p2", none⟩].filter
            (fun p : Product => decide (r.productId = p._id))).map
          (fun p => { p with qty := some r.qty })) :=
  ⟨by decide, generateCartItemsFrom_items _ _ (by decide)⟩

/-! ## C3, C4, C5: the aggregates -/

theorem spacingExp_spec (fuel m : Nat) (h : m ≤ fuel) :
    m / 2 ^ spacingExp fuel m < 2 ^ 53 := by
  induction fuel generalizing m with
  | zero =>
    have : m = 0 := Nat.le_zero.1 h
    subst this
    simp [spacingExp]
  | succ fuel ih =>
    unfold spacingExp
    by_cases hm : m < 2 ^ 53
    · simp only [hm, if_true, pow_zero, Nat.div_one]
    · simp only [hm, if_false]
      have h2 : m / 2 ≤ fuel := by omega
      have := ih (m / 2) h2
      rw [Nat.add_comm, pow_succ, Nat.mul_comm, ← Nat.div_div_eq_div_mul]
      exact this

theorem roundDouble_of_le (n : Int) (h : n.natAbs ≤ 2 ^ 53) : roundDouble n = JsNum.int n := by
  simp only [roundDouble, h, if_true]

/-- Adding up integers whose running totals all stay within `2 ^ 53` in magnitude
is exact. -/
theorem foldl_add_exact (xs : List Int) (a : Int)
    (h : ∀ k, (a + (xs.take k).sum).natAbs ≤ 2 ^ 53) :
    (xs.map JsNum.int).foldl (fun total n => JsNum.add total n) (JsNum.int a) =
      JsNum.int (a + xs.sum) := by
  induction xs generalizing a with
  | nil => simp
  | cons x xs ih =>
    have h1 : (a + x).natAbs ≤ 2 ^ 53 := by simpa using h 1
    have hstep : JsNum.add (JsNum.int a) (JsNum.int x) = JsNum.int (a + x) :=
      roundDouble_of_le (a + x) h1
    have hrest : ∀ k, (a + x + (xs.take k).sum).natAbs ≤ 2 ^ 53 := by
      intro k
      have := h (k + 1)
      simpa [Int.add_assoc] using this
    simp only [List.map_cons, List.foldl_cons, hstep, ih (a + x) hrest, List.sum_cons,
      Int.add_assoc]

/-- Adding up integers whose magnitudes add up to at most `2 ^ 53` is exact. -/
theorem foldl_add_exact_of_abs (xs : List Int) (a : Int)
    (h : a.natAbs + (xs.map Int.natAbs).sum ≤ 2 ^ 53) :
    (xs.map JsNum.int).foldl (fun total n => JsNum.add total n) (JsNum.int a) =
      JsNum.int (a + xs.sum) := by
  induction xs generalizing a with
  | nil => simp
  | cons x xs ih =>
    simp only [List.map_cons, List.sum_cons] at h
    have hax : (a + x).natAbs ≤ a.natAbs + x.natAbs := Int.natAbs_add_le a x
    have hstep : JsNum.add (JsNum.int a) (JsNum.int x) = JsNum.int (a + x) :=
      roundDouble_of_le (a + x) (by omega)
    simp only [List.map_cons, List.foldl_cons, hstep, ih (a + x) (by omega), List.sum_cons,
      Int.add_assoc]

theorem map_jsMul_exact (items : List CartItem)
    (h : ∀ i ∈ items, (i.cost * i.qty).natAbs ≤ 2 ^ 53) :
    items.map (fun i => jsMul i.cost i.qty) =
      (items.map (fun i => i.cost * i.qty)).map JsNum.int := by
  rw [List.map_map]
  apply List.map_congr_left
  intro i hi
  exact roundDouble_of_le _ (h i hi)

theorem getTotalItems_foldl (items : List CartItem) :
    getTotalItems (JsArg.value items) =
      Except.ok (((items.map (fun i => i.qty)).map JsNum.int).foldl
        (fun total n => JsNum.add total n) (JsNum.int 0)) := by
  simp [getTotalItems, defaultItems, List.foldl_map]

/-- C3 (the code at the failing input): `getTotalCartValue` applied to the empty
list of cart items does not return 0: `reduce` without an initial value throws a
`TypeError`, and so does the call without an argument, whose parameter defaults
to the empty list; only `null` takes the early `return 0`. -/
theorem getTotalCartValue_empty_throws :
    getTotalCartValue (JsArg.value []) = Except.error JsError.typeError ∧
    getTotalCartValue JsArg.undefined = Except.error JsError.typeError ∧
    getTotalCartValue JsArg.null = Except.ok (JsNum.int 0) :=
  ⟨rfl, rfl, rfl⟩

/-- C4 (amended): for every non-empty list of cart items in which every product
`cost * qty` and every running total of these products, in the order of the
list, is at most `2 ^ 53` in magnitude, `getTotalCartValue` returns the sum over
the items of `cost * qty`; for the items `{cost 100, qty 2}`, `{cost 50, qty 1}`
it returns 250. -/
theorem getTotalCartValue_nonempty :
    (∀ items : List CartItem, items ≠ [] →
      (∀ i ∈ items, (i.cost * i.qty).natAbs ≤ 2 ^ 53) →
      (∀ k, Int.natAbs (((items.take k).map (fun i : CartItem => i.cost * i.qty)).sum) ≤
        2 ^ 53) →
      getTotalCartValue (JsArg.value items) =
        Except.ok (JsNum.int ((items.map (fun i => i.cost * i.qty)).sum))) ∧
    getTotalCartValue (JsArg.value
        [⟨"Phone", 2, "Phones", 100, 4, "a.jpg", "p1"⟩,
         ⟨"Ball", 1, "Sports", 50, 5, "b.jpg", "p2"⟩]) = Except.ok (JsNum.int 250) := by
  refine ⟨?_, rfl⟩
  intro items hne hprod hsum
  cases items with
  | nil => exact absurd rfl hne
  | cons i rest =>
    have hrest : ∀ k, (i.cost * i.qty +
        ((rest.map (fun i : CartItem => i.cost * i.qty)).take k).sum).natAbs ≤ 2 ^ 53 := by
      intro k
      have := hsum (k + 1)
      simpa [List.map_take] using this
    have hmap := map_jsMul_exact (i :: rest) hprod
    simp only [List.map_cons] at hmap
    simp only [getTotalCartValue, defaultItems, List.map_cons, hmap, reduce,
      foldl_add_exact _ _ hrest, List.sum_cons]

/-- Instance of C4 (amended) at a list of one item, cost 30, qty 3. -/
theorem getTotalCartValue_nonempty_witness :
    [(⟨"Pen", 3, "Office", 30, 5, "p.jpg", "p9"⟩ : CartItem)] ≠ [] ∧
    (∀ i ∈ [(⟨"Pen", 3, "Office", 30, 5, "p.jpg", "p9"⟩ : CartItem)],
      (i.cost * i.qty).natAbs ≤ 2 ^ 53) ∧
    (∀ k, Int.natAbs ((([(⟨"Pen", 3, "Office", 30, 5, "p.jpg", "p9"⟩ : CartItem)].take k).map
      (fun i : CartItem => i.cost * i.qty)).sum) ≤ 2 ^ 53) ∧
    getTotalCartValue (JsArg.value [⟨"Pen", 3, "Office", 30, 5, "p.jpg", "p9"⟩]) =
      Except.ok (JsNum.int 90) :=
  have hrun : ∀ k,
      Int.natAbs ((([(⟨"Pen", 3, "Office", 30, 5, "p.jpg", "p9"⟩ : CartItem)].take k).map
        (fun i : CartItem => i.cost * i.qty)).sum) ≤ 2 ^ 53 := by
    intro k
    cases k with
    | zero => decide
    | succ k => simp [List.take_succ_cons]
  ⟨by simp, by decide, hrun,
    getTotalCartValue_nonempty.1 [⟨"Pen", 3, "Office", 30, 5, "p.jpg", "p9"⟩] (by simp)
      (by decide) hrun⟩

/-- C4 as stated fails above `2 ^ 53`: for the single item of cost 94906267 and
qty 94906267 the product is 9007199515875289, which is not a double, and
`getTotalCartValue` returns the nearest double, 9007199515875288. -/
theorem getTotalCartValue_nonempty_counterexample :
    getTotalCartValue (JsArg.value
        [⟨"Bulk", 94906267, "Wholesale", 94906267, 5, "w.jpg", "p7"⟩]) =
      Except.ok (JsNum.int 9007199515875288) ∧
    ([(⟨"Bulk", 94906267, "Wholesale", 94906267, 5, "w.jpg", "p7"⟩ : CartItem)].map
        (fun i => i.cost * i.qty)).sum = 9007199515875289 ∧
    (9007199515875288 : Int) ≠ 9007199515875289 :=
  ⟨rfl, by decide, by decide⟩

/-- C5 (amended): for every list of cart items in which every running total of the
`qty`, in the order of the list, is at most `2 ^ 53` in magnitude,
`getTotalItems` returns the sum of the items' `qty`; and it returns 0 for the
empty list. -/
theorem getTotalItems_sum :
    (∀ items : List CartItem,
      (∀ k, Int.natAbs (((items.take k).map (fun i : CartItem => i.qty)).sum) ≤ 2 ^ 53) →
      getTotalItems (JsArg.value items) =
        Except.ok (JsNum.int ((items.map (fun i => i.qty)).sum))) ∧
    getTotalItems (JsArg.value []) = Except.ok (JsNum.int 0) := by
  refine ⟨?_, rfl⟩
  intro items hsum
  have h : ∀ k,
      (0 + ((items.map (fun i : CartItem => i.qty)).take k).sum).natAbs ≤ 2 ^ 53 := by
    intro k
    have := hsum k
    simpa [List.map_take] using this
  rw [getTotalItems_foldl, foldl_add_exact _ _ h, Int.zero_add]

/-- Instance of C5 (amended) at a list of two items, qty 2 and qty 1. -/
theorem getTotalItems_sum_witness :
    (∀ k, Int.natAbs ((([(⟨"Phone", 2, "Phones", 100, 4, "a.jpg", "p1"⟩ : CartItem),
        ⟨"Ball", 1, "Sports", 50, 5, "b.jpg", "p2"⟩].take k).map
      (fun i : CartItem => i.qty)).sum) ≤ 2 ^ 53) ∧
    getTotalItems (JsArg.value
        [⟨"Phone", 2, "Phones", 100, 4, "a.jpg", "p1"⟩,
         ⟨"Ball", 1, "Sports", 50, 5, "b.jpg", "p2"⟩]) = Except.ok (JsNum.int 3) :=
  have hrun : ∀ k,
      Int.natAbs ((([(⟨"Phone", 2, "Phones", 100, 4, "a.jpg", "p1"⟩ : CartItem),
          ⟨"Ball", 1, "Sports", 50, 5, "b.jpg", "p2"⟩].take k).map
        (fun i : CartItem => i.qty)).sum) ≤ 2 ^ 53 := by
    intro k
    cases k with
    | zero => decide
    | succ k =>
      cases k with
      | zero => decide
      | succ k => simp [List.take_succ_cons]
  ⟨hrun, getTotalItems_sum.1
    [⟨"Phone", 2, "Phones", 100, 4, "a.jpg", "p1"⟩,
     ⟨"Ball", 1, "Sports", 50, 5, "b.jpg", "p2"⟩] hrun⟩

/-- C5 as stated fails above `2 ^ 53`: for the items of qty 9007199254740992
(`2 ^ 53`) and qty 1 the sum is 9007199254740993, which is not a double, and
`getTotalItems` returns 9007199254740992. -/
theorem getTotalItems_sum_counterexample :
    getTotalItems (JsArg.value
        [⟨"Bulk", 9007199254740992, "Wholesale", 1, 5, "w.jpg", "p7"⟩,
         ⟨"Pen", 1, "Office", 30, 5, "p.jpg", "p9"⟩]) =
      Except.ok (JsNum.int 9007199254740992) ∧
    ([(⟨"Bulk", 9007199254740992, "Wholesale", 1, 5, "w.jpg", "p7"⟩ : CartItem),
      ⟨"Pen", 1, "Office", 30, 5, "p.jpg", "p9"⟩].map (fun i => i.qty)).sum =
      9007199254740993 ∧
    (9007199254740992 : Int) ≠ 9007199254740993 :=
  ⟨rfl, by decide, by decide⟩

/-! ## C6 to C9: the guards and the state update of `addToCart` -/

theorem collect_foldl (productId : String) (items acc : List CartRecord) :
    items.foldl (fun acc i => if i.productId = productId then acc ++ [i] else acc) acc =
      acc ++ items.filter (fun i => decide (i.productId = productId)) := by
  induction items generalizing acc with
  | nil => simp
  | cons i items ih =>
    by_cases h : i.productId = productId <;> simp [ih, h]

theorem isItemInCart_iff (items : List CartRecord) (productId : String) :
    isItemInCart items productId = true ↔ ∃ r ∈ items, r.productId = productId := by
  unfold isItemInCart
  simp only [collect_foldl, List.nil_append, gt_iff_lt, decide_eq_true_eq, List.length_pos]
  constructor
  · intro h
    obtain ⟨r, hr⟩ := List.exists_mem_of_ne_nil _ h
    have := List.mem_filter.1 hr
    exact ⟨r, this.1, by simpa using this.2⟩
  · rintro ⟨r, hr, hp⟩
    exact List.ne_nil_of_mem (List.mem_filter.2 ⟨hr, by simpa using hp⟩)

theorem tokenPresent_some (t : String) (ht : t ≠ "") : tokenPresent (some t) = true := by
  simp [tokenPresent, ht]

/-- C6 (amended): with a session token present and `preventDuplicate = true`,
`addToCart` stops with the duplicate-item warning, issuing no backend request
and leaving the state untouched, exactly when the records passed to it contain
an entry whose `productId` is the requested one, whatever that entry's
quantity; in every other case it issues the `POST /cart` request. -/
theorem addToCart_preventDuplicate (endpoint : String)
    (backend : String → Int → String → PostResult) (s : CartState) (t : String)
    (items : List CartRecord) (productId : String) (qty : Int) (ht : t ≠ "") :
    ((∃ r ∈ items, r.productId = productId) →
      addToCart endpoint backend s (some t) items productId qty (JsArg.value ⟨true⟩) =
        Except.ok { s with log := s.log ++ [Effect.enqueueSnackbar duplicateWarning "warning"] }) ∧
    ((¬ ∃ r ∈ items, r.productId = productId) →
      ∃ s' e, addToCart endpoint backend s (some t) items productId qty (JsArg.value ⟨true⟩) =
          Except.ok s' ∧
        s'.log = s.log ++ [Effect.post (cartUrl endpoint) productId qty t, e] ∧
        e.isPost = false) := by
  have htok := tokenPresent_some t ht
  constructor
  · intro h
    have hin := (isItemInCart_iff items productId).2 h
    simp [addToCart, htok, preventDuplicateOf, hin]
  · intro h
    have hin : isItemInCart items productId = false := by
      cases hb : isItemInCart items productId with
      | false => rfl
      | true => exact absurd ((isItemInCart_iff items productId).1 hb) h
    simp only [addToCart, htok, preventDuplicateOf, hin, Bool.and_false, Bool.false_eq_true,
      if_false]
    cases backend productId qty t with
    | resolved data => exact ⟨_, Effect.setItems data, rfl, by simp, rfl⟩
    | rejected message =>
      by_cases hm : truthyString message = true
      · simp only [hm, if_true]
        exact ⟨_, Effect.enqueueSnackbar (message.getD "") "error", rfl, by simp, rfl⟩
      · simp only [hm, if_false]
        exact ⟨_, Effect.enqueueSnackbar backendWarning "error", rfl, by simp, rfl⟩


/-- Instance of C6 (amended) at the records `A × 2`, the token `tok` and a request
for product `A`: the duplicate warning, and no request. -/
theorem addToCart_preventDuplicate_witness :
    "tok" ≠ "" ∧ (∃ r ∈ [(⟨"A", 2⟩ : CartRecord)], r.productId = "A") ∧
    addToCart "http://host/api/v1" (fun _ _ _ => PostResult.resolved [⟨"A", 1⟩])
        ⟨[⟨"A", 2⟩], []⟩ (some "tok") [⟨"A", 2⟩] "A" 1 (JsArg.value ⟨true⟩) =
      Except.ok ⟨[⟨"A", 2⟩], [Effect.enqueueSnackbar duplicateWarning "warning"]⟩ :=
  ⟨by decide, ⟨⟨"A", 2⟩, by simp, rfl⟩,
    (addToCart_preventDuplicate "http://host/api/v1" (fun _ _ _ => PostResult.resolved [⟨"A", 1⟩])
      ⟨[⟨"A", 2⟩], []⟩ "tok" [⟨"A", 2⟩] "A" 1 (by decide)).1 ⟨⟨"A", 2⟩, by simp, rfl⟩⟩

/-- C6 as stated fails on a record of quantity 0: the records hold no entry for
product `A` with quantity at least 1, so the claim has `addToCart` issue the
request, but the call stops with the duplicate-item warning and issues none. -/
theorem addToCart_preventDuplicate_counterexample :
    (¬ ∃ r ∈ [(⟨"A", 0⟩ : CartRecord)], r.productId = "A" ∧ 1 ≤ r.qty) ∧
    addToCart "http://host/api/v1" (fun _ _ _ => PostResult.resolved [⟨"A", 1⟩])
        ⟨[⟨"A", 0⟩], []⟩ (some "tok") [⟨"A", 0⟩] "A" 1 (JsArg.value ⟨true⟩) =
      Except.ok ⟨[⟨"A", 0⟩], [Effect.enqueueSnackbar duplicateWarning "warning"]⟩ := by
  refine ⟨?_, rfl⟩
  simp

/-- C7: for every record list, product id, quantity and options value, `addToCart`
called with an absent session token (`null`, or the empty string) stops with the
login warning: the only effect is that warning, no backend request is issued and
the held cart records are unchanged. -/
theorem addToCart_no_token (endpoint : String)
    (backend : String → Int → String → PostResult) (s : CartState)
    (items : List CartRecord) (productId : String) (qty : Int) (options : JsArg Options) :
    addToCart endpoint backend s none items productId qty options =
      Except.ok { item := s.item,
                  log := s.log ++ [Effect.enqueueSnackbar loginWarning "warning"] } ∧
    addToCart endpoint backend s (some "") items productId qty options =
      Except.ok { item := s.item,
                  log := s.log ++ [Effect.enqueueSnackbar loginWarning "warning"] } :=
  ⟨rfl, rfl⟩

/-- C8: when `addToCart` passes both guards and the backend answers the request
with a record list `L`, the call issues exactly that request and the held cart
records afterwards are `L`, whatever they were before; requesting quantity 0 for
product `A` on the records `A × 1` against a backend that answers the empty list
leaves no entry for `A`. -/
theorem addToCart_success :
    (∀ (endpoint : String) (backend : String → Int → String → PostResult) (s : CartState)
        (t : String) (items : List CartRecord) (productId : String) (qty : Int)
        (options : JsArg Options) (preventDuplicate : Bool) (L : List CartRecord),
      t ≠ "" →
      preventDuplicateOf options = Except.ok preventDuplicate →
      (preventDuplicate && isItemInCart items productId) = false →
      backend productId qty t = PostResult.resolved L →
      addToCart endpoint backend s (some t) items productId qty options =
        Except.ok { item := L,
                    log := s.log ++ [Effect.post (cartUrl endpoint) productId qty t,
                                     Effect.setItems L] }) ∧
    (∃ s', addToCart "http://host/api/v1" (fun _ _ _ => PostResult.resolved [])
          ⟨[⟨"A", 1⟩], []⟩ (some "tok") [⟨"A", 1⟩] "A" 0 (JsArg.value ⟨false⟩) = Except.ok s' ∧
        s'.item = [] ∧ ¬ ∃ r ∈ s'.item, r.productId = "A") := by
  constructor
  · intro endpoint backend s t items productId qty options preventDuplicate L ht hopt hdup hres
    have htok := tokenPresent_some t ht
    simp [addToCart, htok, hopt, hdup, hres]
  · exact ⟨_, rfl, rfl, by simp⟩

/-- Instance of C8 at the quantity stepper's call on the records `A × 1`: no
options, quantity 2, the backend answers `A × 2`. -/
theorem addToCart_success_witness :
    "tok" ≠ "" ∧
    preventDuplicateOf JsArg.undefined = Except.ok false ∧
    (false && isItemInCart [⟨"A", 1⟩] "A") = false ∧
    addToCart "http://host/api/v1" (fun _ _ _ => PostResult.resolved [⟨"A", 2⟩])
        ⟨[⟨"A", 1⟩], []⟩ (some "tok") [⟨"A", 1⟩] "A" 2 JsArg.undefined =
      Except.ok ⟨[⟨"A", 2⟩],
        [Effect.post "http://host/api/v1/cart" "A" 2 "tok", Effect.setItems [⟨"A", 2⟩]]⟩ :=
  ⟨by decide, rfl, rfl,
    addToCart_success.1 "http://host/api/v1" (fun _ _ _ => PostResult.resolved [⟨"A", 2⟩])
      ⟨[⟨"A", 1⟩], []⟩ "tok" [⟨"A", 1⟩] "A" 2 JsArg.undefined false [⟨"A", 2⟩]
      (by decide) rfl rfl rfl⟩

/-- C9: when the backend request issued by `addToCart` fails, with a message (as on
a 404) or without one (as on a transport failure), the call issues that one
request, shows one error message, and the held cart records afterwards equal the
held cart records before. -/
theorem addToCart_failure (endpoint : String)
    (backend : String → Int → String → PostResult) (s : CartState)
    (t : String) (items : List CartRecord) (productId : String) (qty : Int)
    (options : JsArg Options) (preventDuplicate : Bool) (message : Option String)
    (ht : t ≠ "")
    (hopt : preventDuplicateOf options = Except.ok preventDuplicate)
    (hdup : (preventDuplicate && isItemInCart items productId) = false)
    (hres : backend productId qty t = PostResult.rejected message) :
    addToCart endpoint backend s (some t) items productId qty options =
      Except.ok { item := s.item,
                  log := s.log ++ [Effect.post (cartUrl endpoint) productId qty t,
                    Effect.enqueueSnackbar
                      (if truthyString message then message.getD "" else backendWarning)
                      "error"] } := by
  have htok := tokenPresent_some t ht
  by_cases hm : truthyString message = true <;>
    simp [addToCart, htok, hopt, hdup, hres, hm]

/-- Instance of C9 at a request for an unknown product that the backend rejects
with its 404 message. -/
theorem addToCart_failure_witness :
    "tok" ≠ "" ∧
    addToCart "http://host/api/v1" (fun _ _ _ => PostResult.rejected (some "Product doesn't exist"))
        ⟨[⟨"A", 1⟩], []⟩ (some "tok") [⟨"A", 1⟩] "Z" 1 (JsArg.value ⟨true⟩) =
      Except.ok ⟨[⟨"A", 1⟩],
        [Effect.post "http://host/api/v1/cart" "Z" 1 "tok",
         Effect.enqueueSnackbar "Product doesn't exist" "error"]⟩ :=
  ⟨by decide,
    addToCart_failure "http://host/api/v1"
      (fun _ _ _ => PostResult.rejected (some "Product doesn't exist"))
      ⟨[⟨"A", 1⟩], []⟩ "tok" [⟨"A", 1⟩] "Z" 1 (JsArg.value ⟨true⟩) true
      (some "Product doesn't exist") (by decide) rfl (by decide) rfl⟩

/-! ## C10: the debounce -/

theorem elapse_of_no_timer (dt : Nat) (s : SearchState) (h : s.timers = []) :
    elapse dt s = { s with now := s.now + dt } := by
  simp [elapse, h]

theorem elapse_before_due (dt : Nat) (s : SearchState) (t : Timer) (h : s.timers = [t])
    (hlt : s.now + dt < t.due) : elapse dt s = { s with now := s.now + dt } := by
  have hn : ¬ t.due ≤ s.now + dt := Nat.not_le.2 hlt
  simp [elapse, h, List.filter_cons, hn]

theorem elapse_after_due (dt : Nat) (s : SearchState) (t : Timer) (h : s.timers = [t])
    (hle : t.due ≤ s.now + dt) :
    elapse dt s =
      { s with now := s.now + dt, timers := [], requests := s.requests ++ [(t.due, t.text)] } := by
  simp [elapse, h, List.filter_cons, hle, fire, performSearch]

theorem keystroke_first (s : SearchState) (g : Nat) (q : String)
    (h0 : s.timers = []) (hid : s.nextTimer ≠ 0) (hq : q ≠ "") :
    PendingFire s.requests q (keystroke s (g, q)) ∧ (keystroke s (g, q)).now = s.now + g := by
  unfold keystroke
  simp only [elapse_of_no_timer g s h0]
  unfold debounceSearch
  simp only [hq, ne_eq, not_false_eq_true, if_true]
  cases hd : s.debounceTimeout with
  | none =>
    simp only [setTimeout, h0, List.nil_append]
    exact ⟨⟨Nat.succ_ne_zero _, rfl, s.nextTimer, hid, rfl, rfl⟩, trivial⟩
  | some handle =>
    by_cases hh : handle = 0
    · simp only [hh, ne_eq, not_true_eq_false, if_false, setTimeout, h0, List.nil_append]
      exact ⟨⟨Nat.succ_ne_zero _, rfl, s.nextTimer, hid, rfl, rfl⟩, trivial⟩
    · simp only [hh, ne_eq, not_false_eq_true, if_true, setTimeout, clearTimeout, h0,
        List.filter_nil, List.nil_append]
      exact ⟨⟨Nat.succ_ne_zero _, rfl, s.nextTimer, hid, rfl, rfl⟩, trivial⟩

theorem keystroke_pending (reqs : List (Nat × String)) (q : String) (s : SearchState)
    (g : Nat) (q' : String) (hs : PendingFire reqs q s) (hg : g < 500) (hq : q' ≠ "") :
    PendingFire reqs q' (keystroke s (g, q')) ∧ (keystroke s (g, q')).now = s.now + g := by
  obtain ⟨hnext, hreq, id, hid, htim, hdeb⟩ := hs
  have hel := elapse_before_due g s _ htim (by simpa using hg)
  unfold keystroke
  simp only [hel]
  unfold debounceSearch
  simp only [hq, ne_eq, not_false_eq_true, if_true, hdeb, hid, setTimeout, clearTimeout, htim,
    List.filter_cons, decide_not, decide_True, Bool.not_true, Bool.false_eq_true, if_false,
    List.filter_nil, List.nil_append]
  exact ⟨⟨Nat.succ_ne_zero _, hreq, s.nextTimer, hnext, rfl, rfl⟩, trivial⟩

theorem keystrokes_pending (reqs : List (Nat × String)) (rest : List (Nat × String))
    (s : SearchState) (k : Nat × String) (hs : PendingFire reqs k.2 s)
    (hrest : ∀ x ∈ rest, x.1 < 500 ∧ x.2 ≠ "") :
    PendingFire reqs (rest.getLastD k).2 (rest.foldl keystroke s) ∧
      (rest.foldl keystroke s).now = s.now + (rest.map Prod.fst).sum := by
  induction rest generalizing s k with
  | nil => exact ⟨hs, by simp⟩
  | cons x rest ih =>
    have hx := hrest x (List.mem_cons_self _ _)
    have hstep := keystroke_pending reqs k.2 s x.1 x.2 hs hx.1 hx.2
    have ih' := ih (keystroke s x) x hstep.1 (fun y hy => hrest y (List.mem_cons_of_mem _ hy))
    simp only [List.foldl_cons, List.getLastD_cons, List.map_cons, List.sum_cons]
    refine ⟨ih'.1, ?_⟩
    rw [ih'.2, hstep.2, Nat.add_assoc]

/-- C10: take a state with no pending timer (whose next timer handle is not 0:
handles are positive) and a non-empty sequence of keystrokes with non-empty
query text, the first after any delay `g0` and each later one less than 500 ms
after the one before, each handled by `debounceSearch` with the timer handle the
state holds.  Then the last keystroke happens at time
`now + g0 + (sum of the later gaps)`; up to 500 ms after it no search has fired;
and from 500 ms after it on, exactly one search has fired, at 500 ms after the
last keystroke and for the last keystroke's text, and no timer is pending, so
the superseded texts never fire. -/
theorem debounceSearch_burst (s0 : SearchState) (g0 : Nat) (q0 : String)
    (rest : List (Nat × String))
    (h0 : s0.timers = []) (hid : s0.nextTimer ≠ 0) (hq0 : q0 ≠ "")
    (hrest : ∀ k ∈ rest, k.1 < 500 ∧ k.2 ≠ "") :
    (rest.foldl keystroke (keystroke s0 (g0, q0))).now =
        s0.now + g0 + (rest.map Prod.fst).sum ∧
    (∀ dt, dt < 500 →
      (elapse dt (rest.foldl keystroke (keystroke s0 (g0, q0)))).requests = s0.requests) ∧
    (∀ dt, 500 ≤ dt →
      (elapse dt (rest.foldl keystroke (keystroke s0 (g0, q0)))).requests =
          s0.requests ++
            [(s0.now + g0 + (rest.map Prod.fst).sum + 500, (rest.getLastD (g0, q0)).2)] ∧
        (elapse dt (rest.foldl keystroke (keystroke s0 (g0, q0)))).timers = []) := by
  have hfirst := keystroke_first s0 g0 q0 h0 hid hq0
  have hall := keystrokes_pending s0.requests rest (keystroke s0 (g0, q0)) (g0, q0)
    hfirst.1 hrest
  obtain ⟨⟨_, hreq, id, _, htim, _⟩, hnow⟩ := hall
  rw [hfirst.2] at hnow
  refine ⟨hnow, ?_, ?_⟩
  · intro dt hdt
    rw [elapse_before_due dt _ _ htim (by simpa using hdt)]
    exact hreq
  · intro dt hdt
    rw [elapse_after_due dt _ _ htim (by simpa using hdt)]
    simp [hreq, hnow]

/-- Instance of C10 at the keystrokes `a`, `ap`, `app`, 100 ms apart, on a freshly
mounted component: 500 ms after the last keystroke the
searches fired are the single `performSearch("app")`, at time 700. -/
theorem debounceSearch_burst_witness :
    (mounted 0).timers = [] ∧ (mounted 0).nextTimer ≠ 0 ∧ "a" ≠ "" ∧
    (∀ k ∈ [(100, "ap"), (100, "app")], k.1 < 500 ∧ k.2 ≠ "") ∧
    (elapse 500 ([(100, "ap"), (100, "app")].foldl keystroke
        (keystroke (mounted 0) (0, "a")))).requests = [(700, "app")] :=
  ⟨rfl, by decide, by decide, by decide,
    ((debounceSearch_burst (mounted 0) 0 "a" [(100, "ap"), (100, "app")]
      rfl (by decide) (by decide) (by decide)).2.2 500 (Nat.le_refl 500)).1⟩

/-! ## C11: a keystroke with empty text -/

/-- C11 (the code at the failing input): a keystroke with empty query text only
clears the not-found flag; `debounceSearch` does not cancel the pending timer on
that path.  After the keystroke `a` at time 0 and a keystroke with empty text at
time 100, the timer set for `a` is still pending, and it fires
`performSearch("a")` at time 500. -/
theorem debounceSearch_empty_keeps_timer :
    (∀ (s : SearchState) (handle : Option Nat),
      debounceSearch "" handle s = { s with notFound := false }) ∧
    keystroke (keystroke (mounted 0) (0, "a")) (100, "") =
      { now := 100, nextTimer := 2, timers := [{ id := 1, due := 500, text := "a" }],
        requests := [], product := [], notFound := false, debounceTimeout := some 1 } ∧
    (elapse 400 (keystroke (keystroke (mounted 0) (0, "a")) (100, ""))).requests =
      [(500, "a")] := by
  refine ⟨?_, by decide, by decide⟩
  intro s handle
  simp [debounceSearch]

/-! ## C12: an empty result and a failed search -/

/-- C12 (amended): for every query text, a search that succeeds with an empty
product list replaces the catalog with the empty list and leaves the not-found
flag as it was (it is not treated as an error), while a search that fails sets
the flag and leaves the catalog as it was, so that the view, when not loading,
shows "No products found"; when the flag was not set before the search, the two
outcomes leave different views: the empty grid and "No products found". -/
theorem performSearch_empty_and_failure (text : String) (s : SearchState) :
    (performSearchSettled (SearchResult.resolved []) (performSearch text s)).notFound =
        s.notFound ∧
    (performSearchSettled (SearchResult.resolved []) (performSearch text s)).product = [] ∧
    (performSearchSettled SearchResult.rejected (performSearch text s)).notFound = true ∧
    (performSearchSettled SearchResult.rejected (performSearch text s)).product = s.product ∧
    productsView false (performSearchSettled SearchResult.rejected (performSearch text s)) =
        View.noProductsFound ∧
    (s.notFound = false →
      productsView false
          (performSearchSettled (SearchResult.resolved []) (performSearch text s)) =
        View.grid [] ∧
      productsView false
          (performSearchSettled (SearchResult.resolved []) (performSearch text s)) ≠
        productsView false
          (performSearchSettled SearchResult.rejected (performSearch text s))) := by
  refine ⟨rfl, rfl, rfl, rfl, rfl, ?_⟩
  intro h
  simp [productsView, performSearchSettled, performSearch, h]

/-- Instance of C12 (amended) at the query `x` on a freshly mounted component. -/
theorem performSearch_empty_and_failure_witness :
    (mounted 0).notFound = false ∧
    productsView false
        (performSearchSettled (SearchResult.resolved []) (performSearch "x" (mounted 0))) =
      View.grid [] ∧
    productsView false
        (performSearchSettled (SearchResult.resolved []) (performSearch "x" (mounted 0))) ≠
      productsView false
        (performSearchSettled SearchResult.rejected (performSearch "x" (mounted 0))) :=
  ⟨rfl, (performSearch_empty_and_failure "x" (mounted 0)).2.2.2.2.2 rfl⟩

/-- C12 as stated fails: on a freshly mounted component a failed search for `x`
puts the view in the "No products found" state; and from a state whose flag is
already set and whose catalog is empty, the empty result and the failure leave
the very same state. -/
theorem performSearch_empty_and_failure_counterexample :
    productsView false
        (performSearchSettled SearchResult.rejected (performSearch "x" (mounted 0))) =
      View.noProductsFound ∧
    performSearchSettled (SearchResult.resolved [])
        (performSearch "x" { mounted 0 with notFound := true }) =
      performSearchSettled SearchResult.rejected
        (performSearch "x" { mounted 0 with notFound := true }) :=
  ⟨by decide, by decide⟩

/-! ## C13: the totals and the order of the items -/

theorem natAbs_le_sum_of_mem (f : CartItem → Int) (items : List CartItem) (i : CartItem)
    (hi : i ∈ items) : (f i).natAbs ≤ (items.map (fun j => (f j).natAbs)).sum := by
  induction items with
  | nil => cases hi
  | cons j rest ih =>
    simp only [List.map_cons, List.sum_cons]
    rcases List.mem_cons.1 hi with rfl | hmem
    · omega
    · have := ih hmem
      omega

theorem getTotalCartValue_of_abs (items : List CartItem)
    (h : (items.map (fun i => (i.cost * i.qty).natAbs)).sum ≤ 2 ^ 53) :
    getTotalCartValue (JsArg.value items) =
      if items = [] then Except.error JsError.typeError
      else Except.ok (JsNum.int ((items.map (fun i => i.cost * i.qty)).sum)) := by
  cases items with
  | nil => rfl
  | cons i rest =>
    have hprod : ∀ j ∈ i :: rest, (j.cost * j.qty).natAbs ≤ 2 ^ 53 := fun j hj =>
      Nat.le_trans (natAbs_le_sum_of_mem (fun j => j.cost * j.qty) (i :: rest) j hj) h
    have hmap := map_jsMul_exact (i :: rest) hprod
    simp only [List.map_cons] at hmap
    have hrest : (i.cost * i.qty).natAbs +
        ((rest.map (fun i : CartItem => i.cost * i.qty)).map Int.natAbs).sum ≤ 2 ^ 53 := by
      simpa [List.map_map, Function.comp_def] using h
    simp only [getTotalCartValue, defaultItems, List.map_cons, hmap, reduce,
      foldl_add_exact_of_abs _ _ hrest, List.sum_cons]
    simp

theorem getTotalItems_of_abs (items : List CartItem)
    (h : (items.map (fun i => i.qty.natAbs)).sum ≤ 2 ^ 53) :
    getTotalItems (JsArg.value items) =
      Except.ok (JsNum.int ((items.map (fun i => i.qty)).sum)) := by
  have h0 : (0 : Int).natAbs +
      ((items.map (fun i : CartItem => i.qty)).map Int.natAbs).sum ≤ 2 ^ 53 := by
    simpa [List.map_map, Function.comp_def] using h
  rw [getTotalItems_foldl, foldl_add_exact_of_abs _ _ h0, Int.zero_add]

/-- C13 (amended): for every list of cart items and every permutation of it,
`getTotalCartValue` returns the same result on both lists (the same sum, or the
same exception when the lists are empty) when the magnitudes of the products
`cost * qty` add up to at most `2 ^ 53`, and `getTotalItems` returns the same
result on both lists when the magnitudes of the `qty` add up to at most
`2 ^ 53`. -/
theorem totals_perm (items items' : List CartItem) (h : items.Perm items') :
    ((items.map (fun i => (i.cost * i.qty).natAbs)).sum ≤ 2 ^ 53 →
      getTotalCartValue (JsArg.value items) = getTotalCartValue (JsArg.value items')) ∧
    ((items.map (fun i => i.qty.natAbs)).sum ≤ 2 ^ 53 →
      getTotalItems (JsArg.value items) = getTotalItems (JsArg.value items')) := by
  constructor
  · intro hb
    have hb' : (items'.map (fun i => (i.cost * i.qty).natAbs)).sum ≤ 2 ^ 53 := by
      rw [← (h.map (fun i : CartItem => (i.cost * i.qty).natAbs)).sum_eq]
      exact hb
    rw [getTotalCartValue_of_abs items hb, getTotalCartValue_of_abs items' hb']
    have hsum := (h.map (fun i : CartItem => i.cost * i.qty)).sum_eq
    have hnil : items = [] ↔ items' = [] := ⟨fun e => by subst e; exact h.nil_eq.symm,
      fun e => by subst e; exact h.eq_nil⟩
    by_cases he : items = []
    · simp [he, hnil.1 he]
    · simp [he, mt hnil.2 he, hsum]
  · intro hb
    have hb' : (items'.map (fun i => i.qty.natAbs)).sum ≤ 2 ^ 53 := by
      rw [← (h.map (fun i : CartItem => i.qty.natAbs)).sum_eq]
      exact hb
    rw [getTotalItems_of_abs items hb, getTotalItems_of_abs items' hb']
    exact congrArg (fun n => Except.ok (JsNum.int n))
      (h.map (fun i : CartItem => i.qty)).sum_eq

/-- Instance of C13 (amended) at a list of two items and the same items in the
other order. -/
theorem totals_perm_witness :
    List.Perm
      [(⟨"Phone", 2, "Phones", 100, 4, "a.jpg", "p1"⟩ : CartItem),
       ⟨"Ball", 1, "Sports", 50, 5, "b.jpg", "p2"⟩]
      [⟨"Ball", 1, "Sports", 50, 5, "b.jpg", "p2"⟩,
       ⟨"Phone", 2, "Phones", 100, 4, "a.jpg", "p1"⟩] ∧
    ([(⟨"Phone", 2, "Phones", 100, 4, "a.jpg", "p1"⟩ : CartItem),
      ⟨"Ball", 1, "Sports", 50, 5, "b.jpg", "p2"⟩].map
        (fun i => (i.cost * i.qty).natAbs)).sum ≤ 2 ^ 53 ∧
    ([(⟨"Phone", 2, "Phones", 100, 4, "a.jpg", "p1"⟩ : CartItem),
      ⟨"Ball", 1, "Sports", 50, 5, "b.jpg", "p2"⟩].map (fun i => i.qty.natAbs)).sum ≤ 2 ^ 53 ∧
    getTotalCartValue (JsArg.value
        [⟨"Phone", 2, "Phones", 100, 4, "a.jpg", "p1"⟩,
         ⟨"Ball", 1, "Sports", 50, 5, "b.jpg", "p2"⟩]) =
      getTotalCartValue (JsArg.value
        [⟨"Ball", 1, "Sports", 50, 5, "b.jpg", "p2"⟩,
         ⟨"Phone", 2, "Phones", 100, 4, "a.jpg", "p1"⟩]) ∧
    getTotalItems (JsArg.value
        [⟨"Phone", 2, "Phones", 100, 4, "a.jpg", "p1"⟩,
         ⟨"Ball", 1, "Sports", 50, 5, "b.jpg", "p2"⟩]) =
      getTotalItems (JsArg.value
        [⟨"Ball", 1, "Sports", 50, 5, "b.jpg", "p2"⟩,
         ⟨"Phone", 2, "Phones", 100, 4, "a.jpg", "p1"⟩]) :=
  ⟨List.Perm.swap _ _ _, by decide, by decide,
    (totals_perm _ _ (List.Perm.swap _ _ _)).1 (by decide),
    (totals_perm _ _ (List.Perm.swap _ _ _)).2 (by decide)⟩

/-- C13 as stated fails above `2 ^ 53`: the items of qty `2 ^ 53`, 1, 1 (cost 1
each) and the same items in the order 1, 1, `2 ^ 53` are permutations of each
other, but both totals are 9007199254740992 on the first list, where each
addition of 1 is rounded away, and 9007199254740994 on the second. -/
theorem totals_perm_counterexample :
    List.Perm
      [(⟨"Bulk", 9007199254740992, "Wholesale", 1, 5, "w.jpg", "p7"⟩ : CartItem),
       ⟨"Pen", 1, "Office", 1, 5, "p.jpg", "p9"⟩, ⟨"Cap", 1, "Office", 1, 5, "c.jpg", "p8"⟩]
      [⟨"Pen", 1, "Office", 1, 5, "p.jpg", "p9"⟩, ⟨"Cap", 1, "Office", 1, 5, "c.jpg", "p8"⟩,
       ⟨"Bulk", 9007199254740992, "Wholesale", 1, 5, "w.jpg", "p7"⟩] ∧
    getTotalItems (JsArg.value
        [⟨"Bulk", 9007199254740992, "Wholesale", 1, 5, "w.jpg", "p7"⟩,
         ⟨"Pen", 1, "Office", 1, 5, "p.jpg", "p9"⟩, ⟨"Cap", 1, "Office", 1, 5, "c.jpg", "p8"⟩]) =
      Except.ok (JsNum.int 9007199254740992) ∧
    getTotalItems (JsArg.value
        [⟨"Pen", 1, "Office", 1, 5, "p.jpg", "p9"⟩, ⟨"Cap", 1, "Office", 1, 5, "c.jpg", "p8"⟩,
         ⟨"Bulk", 9007199254740992, "Wholesale", 1, 5, "w.jpg", "p7"⟩]) =
      Except.ok (JsNum.int 9007199254740994) ∧
    getTotalCartValue (JsArg.value
        [⟨"Bulk", 9007199254740992, "Wholesale", 1, 5, "w.jpg", "p7"⟩,
         ⟨"Pen", 1, "Office", 1, 5, "p.jpg", "p9"⟩, ⟨"Cap", 1, "Office", 1, 5, "c.jpg", "p8"⟩]) =
      Except.ok (JsNum.int 9007199254740992) ∧
    getTotalCartValue (JsArg.value
        [⟨"Pen", 1, "Office", 1, 5, "p.jpg", "p9"⟩, ⟨"Cap", 1, "Office", 1, 5, "c.jpg", "p8"⟩,
         ⟨"Bulk", 9007199254740992, "Wholesale", 1, 5, "w.jpg", "p7"⟩]) =
      Except.ok (JsNum.int 9007199254740994) ∧
    (9007199254740992 : Int) ≠ 9007199254740994 :=
  ⟨(List.perm_append_comm :
      List.Perm ([(⟨"Bulk", 9007199254740992, "Wholesale", 1, 5, "w.jpg", "p7"⟩ : CartItem)] ++
          [⟨"Pen", 1, "Office", 1, 5, "p.jpg", "p9"⟩, ⟨"Cap", 1, "Office", 1, 5, "c.jpg", "p8"⟩])
        ([⟨"Pen", 1, "Office", 1, 5, "p.jpg", "p9"⟩, ⟨"Cap", 1, "Office", 1, 5, "c.jpg", "p8"⟩] ++
          [⟨"Bulk", 9007199254740992, "Wholesale", 1, 5, "w.jpg", "p7"⟩])),
    rfl, rfl, rfl, rfl, by decide⟩

/-! ## C14: two requests in flight -/

/-- The function `addToCart` is its part before the `await`, followed, when a
request was sent, by its part after the `await` on the backend's answer. -/
theorem addToCart_eq_issue_settled (endpoint : String)
    (backend : String → Int → String → PostResult) (s : CartState) (token : Option String)
    (items : List CartRecord) (productId : String) (qty : Int) (options : JsArg Options) :
    addToCart endpoint backend s token items productId qty options =
      match addToCartIssue endpoint s token items productId qty options with
      | Except.error e => Except.error e
      | Except.ok (s1, true) =>
        Except.ok (addToCartSettled (backend productId qty (token.getD "")) s1)
      | Except.ok (s1, false) => Except.ok s1 := by
  cases token with
  | none => rfl
  | some t =>
    cases ht : tokenPresent (some t) with
    | false => simp [addToCart, addToCartIssue, ht]
    | true =>
      cases ho : preventDuplicateOf options with
      | error e => simp [addToCart, addToCartIssue, ht, ho]
      | ok pd =>
        cases hd : (pd && isItemInCart items productId) with
        | true => simp [addToCart, addToCartIssue, ht, ho, hd]
        | false =>
          cases hb : backend productId qty t with
          | resolved data => simp [addToCart, addToCartIssue, addToCartSettled, ht, ho, hd, hb]
          | rejected message =>
            by_cases hm : truthyString message = true <;>
              simp [addToCart, addToCartIssue, addToCartSettled, ht, ho, hd, hb, hm]

theorem addToCartIssue_sent (endpoint : String) (s : CartState) (t : String)
    (items : List CartRecord) (productId : String) (qty : Int) (options : JsArg Options)
    (preventDuplicate : Bool) (ht : t ≠ "")
    (hopt : preventDuplicateOf options = Except.ok preventDuplicate)
    (hdup : (preventDuplicate && isItemInCart items productId) = false) :
    addToCartIssue endpoint s (some t) items productId qty options =
      Except.ok
        ({ s with log := s.log ++ [Effect.post (cartUrl endpoint) productId qty t] }, true) := by
  have htok := tokenPresent_some t ht
  simp [addToCartIssue, htok, hopt, hdup]

/-- C14 (amended): when two cart mutation requests X then Y are issued through
`addToCart` (each passing both guards) and both are answered with a record list,
the held cart records after both responses have been applied are those of the
response that arrived last: when Y's response arrives before X's, they are X's
response.  Responses are applied in the order they arrive. -/
theorem addToCart_last_response_wins (endpoint : String) (s : CartState) (t : String)
    (itemsX : List CartRecord) (pX : String) (qX : Int) (optX : JsArg Options) (pdX : Bool)
    (itemsY : List CartRecord) (pY : String) (qY : Int) (optY : JsArg Options) (pdY : Bool)
    (LX LY : List CartRecord) (ht : t ≠ "")
    (hoX : preventDuplicateOf optX = Except.ok pdX)
    (hdX : (pdX && isItemInCart itemsX pX) = false)
    (hoY : preventDuplicateOf optY = Except.ok pdY)
    (hdY : (pdY && isItemInCart itemsY pY) = false) :
    ∃ s1 s2,
      addToCartIssue endpoint s (some t) itemsX pX qX optX = Except.ok (s1, true) ∧
      addToCartIssue endpoint s1 (some t) itemsY pY qY optY = Except.ok (s2, true) ∧
      (addToCartSettled (PostResult.resolved LX)
          (addToCartSettled (PostResult.resolved LY) s2)).item = LX ∧
      (addToCartSettled (PostResult.resolved LX)
          (addToCartSettled (PostResult.resolved LY) s2)).log =
        s.log ++ [Effect.post (cartUrl endpoint) pX qX t, Effect.post (cartUrl endpoint) pY qY t,
          Effect.setItems LY, Effect.setItems LX] :=
  ⟨_, _, addToCartIssue_sent endpoint s t itemsX pX qX optX pdX ht hoX hdX,
    addToCartIssue_sent endpoint _ t itemsY pY qY optY pdY ht hoY hdY, rfl,
    by simp [addToCartSettled]⟩

/-- Instance of C14 (amended) at two clicks of the quantity stepper on the
records `A × 1`: X asks for quantity 2, Y for quantity 3, and Y's answer
`A × 3` arrives before X's answer `A × 2`. -/
theorem addToCart_last_response_wins_witness :
    "tok" ≠ "" ∧
    preventDuplicateOf JsArg.undefined = Except.ok false ∧
    (false && isItemInCart [⟨"A", 1⟩] "A") = false ∧
    ∃ s1 s2,
      addToCartIssue "http://host/api/v1" ⟨[⟨"A", 1⟩], []⟩ (some "tok") [⟨"A", 1⟩] "A" 2
          JsArg.undefined = Except.ok (s1, true) ∧
      addToCartIssue "http://host/api/v1" s1 (some "tok") [⟨"A", 1⟩] "A" 3
          JsArg.undefined = Except.ok (s2, true) ∧
      (addToCartSettled (PostResult.resolved [⟨"A", 2⟩])
          (addToCartSettled (PostResult.resolved [⟨"A", 3⟩]) s2)).item = [⟨"A", 2⟩] ∧
      (addToCartSettled (PostResult.resolved [⟨"A", 2⟩])
          (addToCartSettled (PostResult.resolved [⟨"A", 3⟩]) s2)).log =
        [] ++ [Effect.post (cartUrl "http://host/api/v1") "A" 2 "tok",
          Effect.post (cartUrl "http://host/api/v1") "A" 3 "tok",
          Effect.setItems [⟨"A", 3⟩], Effect.setItems [⟨"A", 2⟩]] :=
  ⟨by decide, rfl, rfl,
    addToCart_last_response_wins "http://host/api/v1" ⟨[⟨"A", 1⟩], []⟩ "tok"
      [⟨"A", 1⟩] "A" 2 JsArg.undefined false [⟨"A", 1⟩] "A" 3 JsArg.undefined false
      [⟨"A", 2⟩] [⟨"A", 3⟩] (by decide) rfl rfl rfl rfl⟩

/-- C14 as stated fails: X (quantity 2) is issued before Y (quantity 3) on the
records `A × 1`, Y's answer `A × 3` arrives first and X's answer `A × 2` second;
the held records after both are X's answer, not Y's. -/
theorem addToCart_last_response_wins_counterexample :
    addToCartIssue "http://host/api/v1" ⟨[⟨"A", 1⟩], []⟩ (some "tok") [⟨"A", 1⟩] "A" 2
        JsArg.undefined =
      Except.ok (⟨[⟨"A", 1⟩], [Effect.post "http://host/api/v1/cart" "A" 2 "tok"]⟩, true) ∧
    addToCartIssue "http://host/api/v1"
        ⟨[⟨"A", 1⟩], [Effect.post "http://host/api/v1/cart" "A" 2 "tok"]⟩
        (some "tok") [⟨"A", 1⟩] "A" 3 JsArg.undefined =
      Except.ok (⟨[⟨"A", 1⟩], [Effect.post "http://host/api/v1/cart" "A" 2 "tok",
        Effect.post "http://host/api/v1/cart" "A" 3 "tok"]⟩, true) ∧
    (addToCartSettled (PostResult.resolved [⟨"A", 2⟩])
        (addToCartSettled (PostResult.resolved [⟨"A", 3⟩])
          ⟨[⟨"A", 1⟩], [Effect.post "http://host/api/v1/cart" "A" 2 "tok",
            Effect.post "http://host/api/v1/cart" "A" 3 "tok"]⟩)).item = [⟨"A", 2⟩] ∧
    (addToCartSettled (PostResult.resolved [⟨"A", 2⟩])
        (addToCartSettled (PostResult.resolved [⟨"A", 3⟩])
          ⟨[⟨"A", 1⟩], [Effect.post "http://host/api/v1/cart" "A" 2 "tok",
            Effect.post "http://host/api/v1/cart" "A" 3 "tok"]⟩)).item ≠ [⟨"A", 3⟩] := by
  refine ⟨rfl, rfl, rfl, by decide⟩

/-! ## C15: the not-found flag -/

theorem foldl_fire_notFound (ts : List Timer) (s : SearchState) :
    (ts.foldl fire s).notFound = s.notFound := by
  induction ts generalizing s with
  | nil => rfl
  | cons t ts ih => simp only [List.foldl_cons, ih]; rfl

theorem elapse_notFound (dt : Nat) (s : SearchState) :
    (elapse dt s).notFound = s.notFound := by
  unfold elapse
  exact foldl_fire_notFound _ s

theorem debounceSearch_notFound (value : String) (handle : Option Nat) (s : SearchState)
    (hv : value ≠ "") : (debounceSearch value handle s).notFound = s.notFound := by
  unfold debounceSearch
  simp only [hv, ne_eq, not_false_eq_true, if_true]
  cases handle with
  | none => rfl
  | some h => by_cases h0 : h = 0 <;> simp [h0, setTimeout, clearTimeout]

theorem apply_notFound (s : SearchState) (e : SearchEvent) (hs : s.notFound = true)
    (he : e.isEmptyKey = false) : (SearchEvent.apply s e).notFound = true := by
  cases e with
  | key gap text =>
    have hv : text ≠ "" := by simpa [SearchEvent.isEmptyKey] using he
    show (debounceSearch text _ (elapse gap s)).notFound = true
    rw [debounceSearch_notFound _ _ _ hv, elapse_notFound, hs]
  | wait dt =>
    show (elapse dt s).notFound = true
    rw [elapse_notFound, hs]
  | settled result =>
    cases result with
    | resolved data => exact hs
    | rejected => rfl

theorem runSearch_notFound (events : List SearchEvent) (s : SearchState)
    (hs : s.notFound = true) (he : ∀ e ∈ events, e.isEmptyKey = false) :
    (runSearch s events).notFound = true := by
  induction events generalizing s with
  | nil => exact hs
  | cons e events ih =>
    exact ih (SearchEvent.apply s e)
      (apply_notFound s e hs (he e (List.mem_cons_self _ _)))
      (fun x hx => he x (List.mem_cons_of_mem _ hx))

/-- C15: a successful `performSearch` replaces the catalog with the response and
changes nothing else, the not-found flag included; an event that takes the flag
from set to cleared is a keystroke with empty query text; so from a state whose
flag is set (as after a failed search), after any sequence of keystrokes, waits
and settled searches none of which is a keystroke with empty text, the flag is
still set and the view shows "No products found" unless the catalog is loading,
whatever the successful searches returned. -/
theorem notFound_sticky :
    (∀ (s : SearchState) (data : List Product),
      performSearchSettled (SearchResult.resolved data) s = { s with product := data }) ∧
    (∀ (s : SearchState) (e : SearchEvent),
      s.notFound = true → (SearchEvent.apply s e).notFound = false → e.isEmptyKey = true) ∧
    (∀ (s : SearchState) (events : List SearchEvent) (isLoading : Bool),
      s.notFound = true → (∀ e ∈ events, e.isEmptyKey = false) →
      (runSearch s events).notFound = true ∧
      productsView isLoading (runSearch s events) =
        if isLoading then View.loading else View.noProductsFound) := by
  refine ⟨fun _ _ => rfl, ?_, ?_⟩
  · intro s e hs hfalse
    cases hk : e.isEmptyKey with
    | true => rfl
    | false =>
      have := apply_notFound s e hs hk
      rw [hfalse] at this
      exact absurd this (by decide)
  · intro s events isLoading hs he
    have h := runSearch_notFound events s hs he
    refine ⟨h, ?_⟩
    simp [productsView, h]

/-- Instance of C15: on a freshly mounted component the search for `x` fails, then
the search for `xy` succeeds with one product, and the view still shows
"No products found". -/
theorem notFound_sticky_witness :
    (performSearchSettled SearchResult.rejected (mounted 0)).notFound = true ∧
    (∀ e ∈ [SearchEvent.key 10 "xy", SearchEvent.wait 500,
        SearchEvent.settled (SearchResult.resolved
          [⟨"Phone", "Phones", 100, 4, "a.jpg", "p1", none⟩])],
      e.isEmptyKey = false) ∧
    productsView false
        (runSearch (performSearchSettled SearchResult.rejected (mounted 0))
          [SearchEvent.key 10 "xy", SearchEvent.wait 500,
            SearchEvent.settled (SearchResult.resolved
              [⟨"Phone", "Phones", 100, 4, "a.jpg", "p1", none⟩])]) =
      View.noProductsFound :=
  ⟨rfl, by decide,
    (notFound_sticky.2.2 (performSearchSettled SearchResult.rejected (mounted 0))
      [SearchEvent.key 10 "xy", SearchEvent.wait 500,
        SearchEvent.settled (SearchResult.resolved
          [⟨"Phone", "Phones", 100, 4, "a.jpg", "p1", none⟩])]
      false rfl (by decide)).2⟩

end Qkart
